import Mathlib

/-!
Shallow embedding of the freesound-rs client library
(src/models/search.rs, src/models/sound.rs, src/client.rs, src/error.rs)
and proofs about its query-builder rendering and JSON response mapping.

JSON values are modelled as an inductive `Json` type mirroring
`serde_json::Value`; numbers are modelled as rationals (`Rat`), which is
adequate for the structural decoding behaviour studied here.  Decoding
follows the serde-derive semantics of the Rust types: a struct decodes
only from an object, present fields are type-checked, duplicate known
fields are an error, unknown fields are ignored, and missing fields are
filled from defaults exactly where the Rust code declares them
(`#[serde(default)]` on the `Sound` container; serde's implicit
`None`-default for `Option` fields of `SearchResponse`; no default at all
for the fields of `Previews` / `Images`).
-/

/-- Model of `serde_json::Value`. -/
inductive Json where
  | null : Json
  | bool (b : Bool) : Json
  | num (q : Rat) : Json
  | str (s : String) : Json
  | arr (elems : List Json) : Json
  | obj (entries : List (String × Json)) : Json

/-- Model of `serde_json::Value::get` on a string index: a field lookup on
objects, `None` on every other kind of value. -/
def Json.get (j : Json) (k : String) : Option Json :=
  match j with
  | .obj entries => entries.lookup k
  | _ => none

/-! ### Sort options (src/models/search.rs, `SortOption`) -/

/-- The nine sort options of `SortOption` in src/models/search.rs. -/
inductive SortOption where
  | Score
  | DurationDesc
  | DurationAsc
  | CreatedDesc
  | CreatedAsc
  | DownloadsDesc
  | DownloadsAsc
  | RatingDesc
  | RatingAsc
deriving Repr, DecidableEq

/-- `impl ToString for SortOption` in src/models/search.rs. -/
def SortOption.toString : SortOption → String
  | .Score => "score"
  | .DurationDesc => "duration_desc"
  | .DurationAsc => "duration_asc"
  | .CreatedDesc => "created_desc"
  | .CreatedAsc => "created_asc"
  | .DownloadsDesc => "downloads_desc"
  | .DownloadsAsc => "downloads_asc"
  | .RatingDesc => "rating_desc"
  | .RatingAsc => "rating_asc"

/-! ### Query builder (src/models/search.rs, `SearchQueryBuilder`) -/

/-- The accumulated state of `SearchQueryBuilder`.  Rust `i32` arguments are
modelled as `Int`. -/
structure SearchQueryBuilder where
  query : Option String
  filter : Option String
  sort : Option SortOption
  group_by_pack : Option Bool
  page : Option Int
  page_size : Option Int
  fields : Option (List String)
  descriptors : Option (List String)
  normalized : Option Bool
deriving Repr, DecidableEq

/-- `SearchQueryBuilder::new` (the `Default` derive: every field `None`). -/
def SearchQueryBuilder.new : SearchQueryBuilder :=
  ⟨none, none, none, none, none, none, none, none, none⟩

/-- Setter `SearchQueryBuilder::query`. -/
def SearchQueryBuilder.setQuery (b : SearchQueryBuilder) (q : String) :
    SearchQueryBuilder :=
  { b with query := some q }

/-- Setter `SearchQueryBuilder::filter`. -/
def SearchQueryBuilder.setFilter (b : SearchQueryBuilder) (f : String) :
    SearchQueryBuilder :=
  { b with filter := some f }

/-- Setter `SearchQueryBuilder::sort`. -/
def SearchQueryBuilder.setSort (b : SearchQueryBuilder) (s : SortOption) :
    SearchQueryBuilder :=
  { b with sort := some s }

/-- Setter `SearchQueryBuilder::group_by_pack`. -/
def SearchQueryBuilder.setGroupByPack (b : SearchQueryBuilder) (g : Bool) :
    SearchQueryBuilder :=
  { b with group_by_pack := some g }

/-- Setter `SearchQueryBuilder::page`. -/
def SearchQueryBuilder.setPage (b : SearchQueryBuilder) (p : Int) :
    SearchQueryBuilder :=
  { b with page := some p }

/-- Setter `SearchQueryBuilder::page_size`. -/
def SearchQueryBuilder.setPageSize (b : SearchQueryBuilder) (s : Int) :
    SearchQueryBuilder :=
  { b with page_size := some s }

/-- Setter `SearchQueryBuilder::fields`. -/
def SearchQueryBuilder.setFields (b : SearchQueryBuilder) (fs : List String) :
    SearchQueryBuilder :=
  { b with fields := some fs }

/-- Setter `SearchQueryBuilder::descriptors`. -/
def SearchQueryBuilder.setDescriptors (b : SearchQueryBuilder)
    (ds : List String) : SearchQueryBuilder :=
  { b with descriptors := some ds }

/-- Setter `SearchQueryBuilder::normalized`. -/
def SearchQueryBuilder.setNormalized (b : SearchQueryBuilder) (n : Bool) :
    SearchQueryBuilder :=
  { b with normalized := some n }

/-- One `if let Some(x) = o { params.push(f(x)) }` step of
`SearchQueryBuilder::build`. -/
def optPair {α β : Type} (o : Option α) (f : α → β) : List β :=
  match o with
  | some x => [f x]
  | none => []

/-- `SearchQueryBuilder::build` in src/models/search.rs: the nine
`if let Some` pushes, in source order. -/
def SearchQueryBuilder.build (b : SearchQueryBuilder) :
    List (String × String) :=
  optPair b.query (fun q => ("query", q)) ++
  optPair b.filter (fun f => ("filter", f)) ++
  optPair b.sort (fun s => ("sort", s.toString)) ++
  optPair b.group_by_pack
    (fun g => ("group_by_pack", if g then "1" else "0")) ++
  optPair b.page (fun p => ("page", toString p)) ++
  optPair b.page_size (fun s => ("page_size", toString s)) ++
  optPair b.fields (fun fs => ("fields", String.intercalate "," fs)) ++
  optPair b.descriptors
    (fun ds => ("descriptors", String.intercalate "," ds)) ++
  optPair b.normalized (fun n => ("normalized", if n then "1" else "0"))

/-- The fixed key order of `SearchQueryBuilder::build`. -/
def builderKeys : List String :=
  ["query", "filter", "sort", "group_by_pack", "page", "page_size",
   "fields", "descriptors", "normalized"]

/-- One invocation of one of the nine setters, with its argument. -/
inductive SetterCall where
  | query (s : String)
  | filter (s : String)
  | sort (o : SortOption)
  | group_by_pack (g : Bool)
  | page (n : Int)
  | page_size (n : Int)
  | fields (l : List String)
  | descriptors (l : List String)
  | normalized (n : Bool)
deriving Repr, DecidableEq

/-- The query key a setter call corresponds to. -/
def SetterCall.key : SetterCall → String
  | .query _ => "query"
  | .filter _ => "filter"
  | .sort _ => "sort"
  | .group_by_pack _ => "group_by_pack"
  | .page _ => "page"
  | .page_size _ => "page_size"
  | .fields _ => "fields"
  | .descriptors _ => "descriptors"
  | .normalized _ => "normalized"

/-- Running one setter call on a builder. -/
def SetterCall.apply (c : SetterCall) (b : SearchQueryBuilder) :
    SearchQueryBuilder :=
  match c with
  | .query s => b.setQuery s
  | .filter s => b.setFilter s
  | .sort o => b.setSort o
  | .group_by_pack g => b.setGroupByPack g
  | .page n => b.setPage n
  | .page_size n => b.setPageSize n
  | .fields l => b.setFields l
  | .descriptors l => b.setDescriptors l
  | .normalized n => b.setNormalized n

/-- Running a chain of setter calls, left to right. -/
def applyCalls (b : SearchQueryBuilder) (l : List SetterCall) :
    SearchQueryBuilder :=
  l.foldl (fun b c => c.apply b) b

/-! ### Query parameters of `FreesoundClient::get_sound` (src/client.rs) -/

/-- The query pairs `get_sound` appends to its request: `descriptors`
joined with commas when given, then `normalized` rendered as "1"/"0" when
given (src/client.rs lines 285-291). -/
def getSoundQueryParams (descriptors : Option (List String))
    (normalized : Option Bool) : List (String × String) :=
  (match descriptors with
   | some desc => [("descriptors", String.intercalate "," desc)]
   | none => []) ++
  (match normalized with
   | some norm => [("normalized", if norm then "1" else "0")]
   | none => [])

/-! ### Primitive field decoders (serde semantics) -/

/-- Decoding a JSON value into a Rust `String`. -/
def asString : Json → Except String String
  | .str s => .ok s
  | _ => .error "invalid type: expected a string"

/-- Decoding a JSON value into a Rust `i32`: an integral number within the
`i32` range. -/
def asI32 : Json → Except String Int
  | .num q =>
    if q.den = 1 ∧ -2147483648 ≤ q.num ∧ q.num < 2147483648 then .ok q.num
    else .error "invalid value: expected i32"
  | _ => .error "invalid type: expected i32"

/-- Decoding a JSON value into a Rust `f32` (modelled as `Rat`). -/
def asF32 : Json → Except String Rat
  | .num q => .ok q
  | _ => .error "invalid type: expected f32"

/-- Decoding a JSON value into a Rust `Vec<String>`. -/
def asStringArray : Json → Except String (List String)
  | .arr xs => xs.mapM asString
  | _ => .error "invalid type: expected a sequence"

/-- Decoding a JSON value into `Option<String>`: `null` is `None`,
otherwise the inner decoder runs. -/
def asOptString : Json → Except String (Option String)
  | .null => .ok none
  | j => (asString j).map some

/-- Decoding a JSON value into `Option<i32>`. -/
def asOptI32 : Json → Except String (Option Int)
  | .null => .ok none
  | j => (asI32 j).map some

/-- Decoding a JSON value into `Option<f32>`. -/
def asOptF32 : Json → Except String (Option Rat)
  | .null => .ok none
  | j => (asF32 j).map some

/-- Decoding a JSON value into `Option<serde_json::Value>`: `null` is
`None`, any other value is carried verbatim. -/
def asOptValue : Json → Except String (Option Json)
  | .null => .ok none
  | j => .ok (some j)

/-! ### `Previews` (src/models/sound.rs): four mandatory string fields -/

/-- The `Previews` record. -/
structure Previews where
  preview_hq_mp3 : String
  preview_lq_mp3 : String
  preview_hq_ogg : String
  preview_lq_ogg : String
deriving Repr, DecidableEq

/-- Partial state while decoding a `Previews` object. -/
structure PreviewsPartial where
  hq_mp3 : Option String := none
  lq_mp3 : Option String := none
  hq_ogg : Option String := none
  lq_ogg : Option String := none

/-- Field-by-field decoding of a `Previews` object: known fields are
type-checked and may not repeat, unknown fields are ignored. -/
def Previews.decodeEntries : List (String × Json) → PreviewsPartial →
    Except String PreviewsPartial
  | [], st => .ok st
  | (k, v) :: rest, st =>
    match k with
    | "preview-hq-mp3" =>
      match st.hq_mp3 with
      | some _ => .error "duplicate field preview-hq-mp3"
      | none => do
        let s ← asString v
        Previews.decodeEntries rest { st with hq_mp3 := some s }
    | "preview-lq-mp3" =>
      match st.lq_mp3 with
      | some _ => .error "duplicate field preview-lq-mp3"
      | none => do
        let s ← asString v
        Previews.decodeEntries rest { st with lq_mp3 := some s }
    | "preview-hq-ogg" =>
      match st.hq_ogg with
      | some _ => .error "duplicate field preview-hq-ogg"
      | none => do
        let s ← asString v
        Previews.decodeEntries rest { st with hq_ogg := some s }
    | "preview-lq-ogg" =>
      match st.lq_ogg with
      | some _ => .error "duplicate field preview-lq-ogg"
      | none => do
        let s ← asString v
        Previews.decodeEntries rest { st with lq_ogg := some s }
    | _ => Previews.decodeEntries rest st

/-- Decoding `Previews`: only from an object, and every field is
mandatory (no `#[serde(default)]` on `Previews`). -/
def Previews.fromJson : Json → Except String Previews
  | .obj entries => do
    let st ← Previews.decodeEntries entries {}
    match st.hq_mp3, st.lq_mp3, st.hq_ogg, st.lq_ogg with
    | some a, some b, some c, some d => .ok ⟨a, b, c, d⟩
    | none, _, _, _ => .error "missing field preview-hq-mp3"
    | _, none, _, _ => .error "missing field preview-lq-mp3"
    | _, _, none, _ => .error "missing field preview-hq-ogg"
    | _, _, _, none => .error "missing field preview-lq-ogg"
  | _ => .error "invalid type: expected struct Previews"

/-- Decoding `Option<Previews>`. -/
def asOptPreviews : Json → Except String (Option Previews)
  | .null => .ok none
  | j => (Previews.fromJson j).map some

/-! ### `Images` (src/models/sound.rs): four mandatory string fields -/

/-- The `Images` record. -/
structure Images where
  waveform_l : String
  waveform_m : String
  spectral_l : String
  spectral_m : String
deriving Repr, DecidableEq

/-- Partial state while decoding an `Images` object. -/
structure ImagesPartial where
  wl : Option String := none
  wm : Option String := none
  sl : Option String := none
  sm : Option String := none

/-- Field-by-field decoding of an `Images` object. -/
def Images.decodeEntries : List (String × Json) → ImagesPartial →
    Except String ImagesPartial
  | [], st => .ok st
  | (k, v) :: rest, st =>
    match k with
    | "waveform_l" =>
      match st.wl with
      | some _ => .error "duplicate field waveform_l"
      | none => do
        let s ← asString v
        Images.decodeEntries rest { st with wl := some s }
    | "waveform_m" =>
      match st.wm with
      | some _ => .error "duplicate field waveform_m"
      | none => do
        let s ← asString v
        Images.decodeEntries rest { st with wm := some s }
    | "spectral_l" =>
      match st.sl with
      | some _ => .error "duplicate field spectral_l"
      | none => do
        let s ← asString v
        Images.decodeEntries rest { st with sl := some s }
    | "spectral_m" =>
      match st.sm with
      | some _ => .error "duplicate field spectral_m"
      | none => do
        let s ← asString v
        Images.decodeEntries rest { st with sm := some s }
    | _ => Images.decodeEntries rest st

/-- Decoding `Images`: only from an object, every field mandatory. -/
def Images.fromJson : Json → Except String Images
  | .obj entries => do
    let st ← Images.decodeEntries entries {}
    match st.wl, st.wm, st.sl, st.sm with
    | some a, some b, some c, some d => .ok ⟨a, b, c, d⟩
    | none, _, _, _ => .error "missing field waveform_l"
    | _, none, _, _ => .error "missing field waveform_m"
    | _, _, none, _ => .error "missing field spectral_l"
    | _, _, _, none => .error "missing field spectral_m"
  | _ => .error "invalid type: expected struct Images"

/-- Decoding `Option<Images>`. -/
def asOptImages : Json → Except String (Option Images)
  | .null => .ok none
  | j => (Images.fromJson j).map some

/-! ### `Sound` (src/models/sound.rs) -/

/-- The `Sound` record: one flat result record.  Rust `i32` fields are
modelled as `Int`, `f32` fields as `Rat`, `serde_json::Value` as `Json`;
the field `type` is `sound_type` as in the Rust struct. -/
structure Sound where
  id : Int
  url : String
  name : String
  tags : List String
  description : String
  geotag : Option String
  created : String
  license : String
  sound_type : String
  channels : Int
  filesize : Int
  bitrate : Option Rat
  bitdepth : Option Int
  duration : Rat
  samplerate : Rat
  username : String
  pack : Option String
  download : String
  bookmark : String
  previews : Option Previews
  images : Option Images
  num_downloads : Int
  avg_rating : Rat
  num_ratings : Int
  rate : String
  comments : String
  num_comments : Int
  comment : String
  similar_sounds : String
  analysis : Option Json
  analysis_stats : String
  analysis_frames : String

/-- `impl Default for Sound` in src/models/sound.rs. -/
def Sound.default : Sound :=
  { id := 0
    url := ""
    name := ""
    tags := []
    description := ""
    geotag := none
    created := ""
    license := ""
    sound_type := ""
    channels := 0
    filesize := 0
    bitrate := none
    bitdepth := none
    duration := 0
    samplerate := 0
    username := ""
    pack := none
    download := ""
    bookmark := ""
    previews := none
    images := none
    num_downloads := 0
    avg_rating := 0
    num_ratings := 0
    rate := ""
    comments := ""
    num_comments := 0
    comment := ""
    similar_sounds := ""
    analysis := none
    analysis_stats := ""
    analysis_frames := "" }

/-- The serialized names of the fields of `Sound` (with the rename
`type` for `sound_type`). -/
def soundFieldNames : List String :=
  ["id", "url", "name", "tags", "description", "geotag", "created",
   "license", "type", "channels", "filesize", "bitrate", "bitdepth",
   "duration", "samplerate", "username", "pack", "download", "bookmark",
   "previews", "images", "num_downloads", "avg_rating", "num_ratings",
   "rate", "comments", "num_comments", "comment", "similar_sounds",
   "analysis", "analysis_stats", "analysis_frames"]

/-- Decoding one present field of `Sound` into the record being built;
a name not in `soundFieldNames` leaves the record unchanged. -/
def Sound.setField (s : Sound) (k : String) (v : Json) :
    Except String Sound :=
  match k with
  | "id" => (asI32 v).map fun x => { s with id := x }
  | "url" => (asString v).map fun x => { s with url := x }
  | "name" => (asString v).map fun x => { s with name := x }
  | "tags" => (asStringArray v).map fun x => { s with tags := x }
  | "description" => (asString v).map fun x => { s with description := x }
  | "geotag" => (asOptString v).map fun x => { s with geotag := x }
  | "created" => (asString v).map fun x => { s with created := x }
  | "license" => (asString v).map fun x => { s with license := x }
  | "type" => (asString v).map fun x => { s with sound_type := x }
  | "channels" => (asI32 v).map fun x => { s with channels := x }
  | "filesize" => (asI32 v).map fun x => { s with filesize := x }
  | "bitrate" => (asOptF32 v).map fun x => { s with bitrate := x }
  | "bitdepth" => (asOptI32 v).map fun x => { s with bitdepth := x }
  | "duration" => (asF32 v).map fun x => { s with duration := x }
  | "samplerate" => (asF32 v).map fun x => { s with samplerate := x }
  | "username" => (asString v).map fun x => { s with username := x }
  | "pack" => (asOptString v).map fun x => { s with pack := x }
  | "download" => (asString v).map fun x => { s with download := x }
  | "bookmark" => (asString v).map fun x => { s with bookmark := x }
  | "previews" => (asOptPreviews v).map fun x => { s with previews := x }
  | "images" => (asOptImages v).map fun x => { s with images := x }
  | "num_downloads" => (asI32 v).map fun x => { s with num_downloads := x }
  | "avg_rating" => (asF32 v).map fun x => { s with avg_rating := x }
  | "num_ratings" => (asI32 v).map fun x => { s with num_ratings := x }
  | "rate" => (asString v).map fun x => { s with rate := x }
  | "comments" => (asString v).map fun x => { s with comments := x }
  | "num_comments" => (asI32 v).map fun x => { s with num_comments := x }
  | "comment" => (asString v).map fun x => { s with comment := x }
  | "similar_sounds" =>
    (asString v).map fun x => { s with similar_sounds := x }
  | "analysis" => (asOptValue v).map fun x => { s with analysis := x }
  | "analysis_stats" =>
    (asString v).map fun x => { s with analysis_stats := x }
  | "analysis_frames" =>
    (asString v).map fun x => { s with analysis_frames := x }
  | _ => .ok s

/-- Walking the entries of a `Sound` object: known fields are decoded and
may not repeat, unknown fields are ignored.  Starting from
`Sound.default` realizes the container-level `#[serde(default)]`: a field
never encountered keeps its `Default` value. -/
def Sound.decodeEntries : List (String × Json) → List String → Sound →
    Except String Sound
  | [], _, acc => .ok acc
  | (k, v) :: rest, seen, acc =>
    if soundFieldNames.contains k then
      if seen.contains k then .error ("duplicate field " ++ k)
      else do
        let acc' ← Sound.setField acc k v
        Sound.decodeEntries rest (k :: seen) acc'
    else
      Sound.decodeEntries rest seen acc

/-- Decoding `Sound` from a JSON value: only objects are accepted; every
missing field defaults (container-level `#[serde(default)]`). -/
def Sound.fromJson : Json → Except String Sound
  | .obj entries => Sound.decodeEntries entries [] Sound.default
  | _ => .error "invalid type: expected struct Sound"

/-! ### `SearchResponse` (src/models/search.rs) -/

/-- The paginated envelope record. -/
structure SearchResponse where
  count : Int
  next : Option String
  results : List Sound
  previous : Option String

/-- Partial state while decoding a `SearchResponse` object.  The outer
`Option` records whether the field was seen at all (for duplicate
detection); for `next` / `previous` the inner value is the decoded
`Option<String>`. -/
structure SearchResponsePartial where
  count : Option Int := none
  next : Option (Option String) := none
  results : Option (List Sound) := none
  previous : Option (Option String) := none

/-- Decoding a JSON value into `Vec<Sound>`, in order. -/
def asSoundArray : Json → Except String (List Sound)
  | .arr xs => xs.mapM Sound.fromJson
  | _ => .error "invalid type: expected a sequence"

/-- Walking the entries of a `SearchResponse` object. -/
def SearchResponse.decodeEntries : List (String × Json) →
    SearchResponsePartial → Except String SearchResponsePartial
  | [], st => .ok st
  | (k, v) :: rest, st =>
    match k with
    | "count" =>
      match st.count with
      | some _ => .error "duplicate field count"
      | none => do
        let c ← asI32 v
        SearchResponse.decodeEntries rest { st with count := some c }
    | "next" =>
      match st.next with
      | some _ => .error "duplicate field next"
      | none => do
        let n ← asOptString v
        SearchResponse.decodeEntries rest { st with next := some n }
    | "results" =>
      match st.results with
      | some _ => .error "duplicate field results"
      | none => do
        let rs ← asSoundArray v
        SearchResponse.decodeEntries rest { st with results := some rs }
    | "previous" =>
      match st.previous with
      | some _ => .error "duplicate field previous"
      | none => do
        let p ← asOptString v
        SearchResponse.decodeEntries rest { st with previous := some p }
    | _ => SearchResponse.decodeEntries rest st

/-- Decoding `SearchResponse` from a JSON value: only objects are
accepted; `count` and `results` are mandatory (no default), while the
`Option`-typed `next` / `previous` fall back to `None` when missing
(serde's implicit behaviour for `Option` fields). -/
def SearchResponse.fromJson : Json → Except String SearchResponse
  | .obj entries => do
    let st ← SearchResponse.decodeEntries entries {}
    match st.count, st.results with
    | some c, some rs =>
      .ok { count := c, next := st.next.getD none, results := rs,
            previous := st.previous.getD none }
    | none, _ => .error "missing field count"
    | _, none => .error "missing field results"
  | _ => .error "invalid type: expected struct SearchResponse"

/-! ### Client result mapping (src/client.rs, src/error.rs) -/

/-- The three error kinds of `FreesoundError` in src/error.rs. -/
inductive FreesoundError where
  | RequestError (msg : String)
  | AuthError (msg : String)
  | ApiError (msg : String)
deriving Repr, DecidableEq

/-- `reqwest::StatusCode::is_success`: 200 ≤ status ≤ 299. -/
def isSuccessStatus (status : Nat) : Bool :=
  200 ≤ status && status < 300

/-- `FreesoundClient::test_api_key` (src/client.rs lines 150-189) as a
function of the response status and the parse outcome of the body
(`none` models a body that is not well-formed JSON).  Message strings
abbreviate the interpolated `format!` texts of the source. -/
def FreesoundClient.test_api_key (status : Nat) (body : Option Json) :
    Except FreesoundError Unit :=
  if status = 401 then
    .error (.AuthError "Invalid API key")
  else if !(isSuccessStatus status) then
    .error (.ApiError ("API request failed: " ++ toString status))
  else
    match body with
    | none => .error (.ApiError "Invalid JSON response")
    | some json =>
      if (json.get "id").isSome then .ok ()
      else .error (.ApiError "Response missing sound ID")

/-- The response handling of `FreesoundClient::search` (src/client.rs
lines 230-241): non-success statuses become `ApiError`; a body that fails
to parse or decode becomes `RequestError` (the `reqwest::Error` of
`.json()` through `#[from]`). -/
def FreesoundClient.search (status : Nat) (body : Option Json) :
    Except FreesoundError SearchResponse :=
  if !(isSuccessStatus status) then
    .error (.ApiError ("API request failed: " ++ toString status))
  else
    match body with
    | none => .error (.RequestError "error decoding response body")
    | some j =>
      match SearchResponse.fromJson j with
      | .ok r => .ok r
      | .error e => .error (.RequestError e)

/-- The response handling of `FreesoundClient::get_sound` (src/client.rs
lines 295-303), same shape as `search` with the single-record target. -/
def FreesoundClient.get_sound (status : Nat) (body : Option Json) :
    Except FreesoundError Sound :=
  if !(isSuccessStatus status) then
    .error (.ApiError ("API request failed: " ++ toString status))
  else
    match body with
    | none => .error (.RequestError "error decoding response body")
    | some j =>
      match Sound.fromJson j with
      | .ok s => .ok s
      | .error e => .error (.RequestError e)

/-- Encoding an `Option<String>` link back into JSON (`null` for `None`),
used to state envelope-decoding properties. -/
def jsonOfOptStr : Option String → Json
  | none => .null
  | some s => .str s

/-! ### Helper lemmas about the query builder -/

/-- Mapping a function over an `optPair` segment. -/
theorem map_optPair {α β γ : Type} (o : Option α) (f : α → β) (g : β → γ) :
    (optPair o f).map g = optPair o (g ∘ f) := by
  cases o <;> rfl

/-- An `optPair` segment with a constant function is a conditional
singleton. -/
theorem optPair_const {α γ : Type} (o : Option α) (k : γ) :
    optPair o (fun _ => k) = if o.isSome then [k] else [] := by
  cases o <;> rfl

/-- Appending after a conditional singleton. -/
theorem cond_singleton_append {γ : Type} (c : Bool) (k : γ) (X : List γ) :
    (if c then [k] else []) ++ X = if c then k :: X else X := by
  cases c <;> rfl

/-- Appending after a conditional cons. -/
theorem cond_cons_append {γ : Type} (c : Bool) (k : γ) (X Y : List γ) :
    (if c then k :: X else X) ++ Y
      = if c then k :: (X ++ Y) else X ++ Y := by
  cases c <;> rfl

/-- Unfolding one step of `applyCalls`. -/
theorem applyCalls_cons (b : SearchQueryBuilder) (c : SetterCall)
    (l : List SetterCall) :
    applyCalls b (c :: l) = applyCalls (c.apply b) l := rfl

/-- After a chain of setter calls, `query` is set iff the chain contains a
`query` call or it was already set. -/
theorem applyCalls_query (l : List SetterCall) (b : SearchQueryBuilder) :
    (applyCalls b l).query.isSome
      = (l.any (fun c => c.key == "query") || b.query.isSome) := by
  induction l generalizing b with
  | nil => simp [applyCalls]
  | cons c rest ih =>
    rw [applyCalls_cons, ih]
    cases c <;> simp [SetterCall.apply, SetterCall.key,
      SearchQueryBuilder.setQuery, SearchQueryBuilder.setFilter,
      SearchQueryBuilder.setSort, SearchQueryBuilder.setGroupByPack,
      SearchQueryBuilder.setPage, SearchQueryBuilder.setPageSize,
      SearchQueryBuilder.setFields, SearchQueryBuilder.setDescriptors,
      SearchQueryBuilder.setNormalized]

/-- Same tracking fact for the `filter` field. -/
theorem applyCalls_filter (l : List SetterCall) (b : SearchQueryBuilder) :
    (applyCalls b l).filter.isSome
      = (l.any (fun c => c.key == "filter") || b.filter.isSome) := by
  induction l generalizing b with
  | nil => simp [applyCalls]
  | cons c rest ih =>
    rw [applyCalls_cons, ih]
    cases c <;> simp [SetterCall.apply, SetterCall.key,
      SearchQueryBuilder.setQuery, SearchQueryBuilder.setFilter,
      SearchQueryBuilder.setSort, SearchQueryBuilder.setGroupByPack,
      SearchQueryBuilder.setPage, SearchQueryBuilder.setPageSize,
      SearchQueryBuilder.setFields, SearchQueryBuilder.setDescriptors,
      SearchQueryBuilder.setNormalized]

/-- Same tracking fact for the `sort` field. -/
theorem applyCalls_sort (l : List SetterCall) (b : SearchQueryBuilder) :
    (applyCalls b l).sort.isSome
      = (l.any (fun c => c.key == "sort") || b.sort.isSome) := by
  induction l generalizing b with
  | nil => simp [applyCalls]
  | cons c rest ih =>
    rw [applyCalls_cons, ih]
    cases c <;> simp [SetterCall.apply, SetterCall.key,
      SearchQueryBuilder.setQuery, SearchQueryBuilder.setFilter,
      SearchQueryBuilder.setSort, SearchQueryBuilder.setGroupByPack,
      SearchQueryBuilder.setPage, SearchQueryBuilder.setPageSize,
      SearchQueryBuilder.setFields, SearchQueryBuilder.setDescriptors,
      SearchQueryBuilder.setNormalized]

/-- Same tracking fact for the `group_by_pack` field. -/
theorem applyCalls_group_by_pack (l : List SetterCall)
    (b : SearchQueryBuilder) :
    (applyCalls b l).group_by_pack.isSome
      = (l.any (fun c => c.key == "group_by_pack")
          || b.group_by_pack.isSome) := by
  induction l generalizing b with
  | nil => simp [applyCalls]
  | cons c rest ih =>
    rw [applyCalls_cons, ih]
    cases c <;> simp [SetterCall.apply, SetterCall.key,
      SearchQueryBuilder.setQuery, SearchQueryBuilder.setFilter,
      SearchQueryBuilder.setSort, SearchQueryBuilder.setGroupByPack,
      SearchQueryBuilder.setPage, SearchQueryBuilder.setPageSize,
      SearchQueryBuilder.setFields, SearchQueryBuilder.setDescriptors,
      SearchQueryBuilder.setNormalized]

/-- Same tracking fact for the `page` field. -/
theorem applyCalls_page (l : List SetterCall) (b : SearchQueryBuilder) :
    (applyCalls b l).page.isSome
      = (l.any (fun c => c.key == "page") || b.page.isSome) := by
  induction l generalizing b with
  | nil => simp [applyCalls]
  | cons c rest ih =>
    rw [applyCalls_cons, ih]
    cases c <;> simp [SetterCall.apply, SetterCall.key,
      SearchQueryBuilder.setQuery, SearchQueryBuilder.setFilter,
      SearchQueryBuilder.setSort, SearchQueryBuilder.setGroupByPack,
      SearchQueryBuilder.setPage, SearchQueryBuilder.setPageSize,
      SearchQueryBuilder.setFields, SearchQueryBuilder.setDescriptors,
      SearchQueryBuilder.setNormalized]

/-- Same tracking fact for the `page_size` field. -/
theorem applyCalls_page_size (l : List SetterCall)
    (b : SearchQueryBuilder) :
    (applyCalls b l).page_size.isSome
      = (l.any (fun c => c.key == "page_size") || b.page_size.isSome) := by
  induction l generalizing b with
  | nil => simp [applyCalls]
  | cons c rest ih =>
    rw [applyCalls_cons, ih]
    cases c <;> simp [SetterCall.apply, SetterCall.key,
      SearchQueryBuilder.setQuery, SearchQueryBuilder.setFilter,
      SearchQueryBuilder.setSort, SearchQueryBuilder.setGroupByPack,
      SearchQueryBuilder.setPage, SearchQueryBuilder.setPageSize,
      SearchQueryBuilder.setFields, SearchQueryBuilder.setDescriptors,
      SearchQueryBuilder.setNormalized]

/-- Same tracking fact for the `fields` field. -/
theorem applyCalls_fields (l : List SetterCall) (b : SearchQueryBuilder) :
    (applyCalls b l).fields.isSome
      = (l.any (fun c => c.key == "fields") || b.fields.isSome) := by
  induction l generalizing b with
  | nil => simp [applyCalls]
  | cons c rest ih =>
    rw [applyCalls_cons, ih]
    cases c <;> simp [SetterCall.apply, SetterCall.key,
      SearchQueryBuilder.setQuery, SearchQueryBuilder.setFilter,
      SearchQueryBuilder.setSort, SearchQueryBuilder.setGroupByPack,
      SearchQueryBuilder.setPage, SearchQueryBuilder.setPageSize,
      SearchQueryBuilder.setFields, SearchQueryBuilder.setDescriptors,
      SearchQueryBuilder.setNormalized]

/-- Same tracking fact for the `descriptors` field. -/
theorem applyCalls_descriptors (l : List SetterCall)
    (b : SearchQueryBuilder) :
    (applyCalls b l).descriptors.isSome
      = (l.any (fun c => c.key == "descriptors")
          || b.descriptors.isSome) := by
  induction l generalizing b with
  | nil => simp [applyCalls]
  | cons c rest ih =>
    rw [applyCalls_cons, ih]
    cases c <;> simp [SetterCall.apply, SetterCall.key,
      SearchQueryBuilder.setQuery, SearchQueryBuilder.setFilter,
      SearchQueryBuilder.setSort, SearchQueryBuilder.setGroupByPack,
      SearchQueryBuilder.setPage, SearchQueryBuilder.setPageSize,
      SearchQueryBuilder.setFields, SearchQueryBuilder.setDescriptors,
      SearchQueryBuilder.setNormalized]

/-- Same tracking fact for the `normalized` field. -/
theorem applyCalls_normalized (l : List SetterCall)
    (b : SearchQueryBuilder) :
    (applyCalls b l).normalized.isSome
      = (l.any (fun c => c.key == "normalized")
          || b.normalized.isSome) := by
  induction l generalizing b with
  | nil => simp [applyCalls]
  | cons c rest ih =>
    rw [applyCalls_cons, ih]
    cases c <;> simp [SetterCall.apply, SetterCall.key,
      SearchQueryBuilder.setQuery, SearchQueryBuilder.setFilter,
      SearchQueryBuilder.setSort, SearchQueryBuilder.setGroupByPack,
      SearchQueryBuilder.setPage, SearchQueryBuilder.setPageSize,
      SearchQueryBuilder.setFields, SearchQueryBuilder.setDescriptors,
      SearchQueryBuilder.setNormalized]

/-- Setters touching different keys commute. -/
theorem apply_comm (c₁ c₂ : SetterCall) (h : c₁.key ≠ c₂.key)
    (b : SearchQueryBuilder) :
    c₂.apply (c₁.apply b) = c₁.apply (c₂.apply b) := by
  cases c₁ <;> cases c₂ <;> first | rfl | (exact absurd rfl h)

/-- Reordering a chain of setter calls with pairwise-distinct keys does
not change the resulting builder state. -/
theorem applyCalls_perm (l l' : List SetterCall) (h : l.Perm l') :
    l.Pairwise (fun a c => a.key ≠ c.key) →
      ∀ b, applyCalls b l = applyCalls b l' := by
  induction h with
  | nil => intro _ b; rfl
  | cons x p ih =>
    intro hp b
    rw [applyCalls_cons, applyCalls_cons]
    exact ih hp.of_cons _
  | swap x y rest =>
    intro hp b
    rw [applyCalls_cons, applyCalls_cons, applyCalls_cons, applyCalls_cons]
    have hxy : y.key ≠ x.key := (List.pairwise_cons.mp hp).1 x (by simp)
    rw [apply_comm y x hxy b]
  | trans p₁ p₂ ih₁ ih₂ =>
    intro hp b
    rw [ih₁ hp b, ih₂ ((p₁.pairwise_iff (fun h => Ne.symm h)).mp hp) b]

/-- The keys rendered after a chain of setter calls are exactly the fixed
key list filtered by which setters occur in the chain. -/
theorem build_keys_calls (l : List SetterCall) :
    (applyCalls SearchQueryBuilder.new l).build.map Prod.fst
      = builderKeys.filter (fun k => l.any (fun c => c.key == k)) := by
  simp only [SearchQueryBuilder.build, List.map_append, map_optPair]
  simp only [Function.comp_def, optPair_const]
  rw [applyCalls_query, applyCalls_filter, applyCalls_sort,
    applyCalls_group_by_pack, applyCalls_page, applyCalls_page_size,
    applyCalls_fields, applyCalls_descriptors, applyCalls_normalized]
  simp only [SearchQueryBuilder.new, Option.isSome_none, Bool.or_false]
  simp only [builderKeys, List.filter_cons, List.filter_nil]
  simp only [List.append_assoc, cond_singleton_append, cond_cons_append,
    List.append_nil, List.nil_append]

/-- Membership in an `optPair` segment. -/
theorem mem_optPair {α β : Type} (o : Option α) (f : α → β) (y : β) :
    y ∈ optPair o f ↔ ∃ x, o = some x ∧ y = f x := by
  cases o <;> simp [optPair]

/-! ### Claim theorems -/

/-- C1 (counterexample): the claim "for every JSON object lacking `id`,
decoding into a sound record yields a decode failure" is false on the
code: the empty object decodes successfully to the all-default record,
whose `id` is 0, because the container-level `#[serde(default)]` on
`Sound` defaults every missing field. -/
theorem sound_missing_id_decodes_claim1_cex :
    Sound.fromJson (.obj []) = .ok Sound.default
    ∧ Sound.default.id = 0 := ⟨rfl, rfl⟩

/-- C1 (amended): decoding fails when the payload is not an object or
when `id` is present with a wrong primitive type (string, boolean or
null); an object lacking `id` decodes successfully with `id` defaulting
to 0. -/
theorem sound_id_claim1_amended :
    Sound.fromJson (.obj []) = .ok Sound.default
    ∧ Sound.default.id = 0
    ∧ (∀ s : String, (Sound.fromJson (.obj [("id", .str s)])).isOk = false)
    ∧ (∀ b : Bool, (Sound.fromJson (.obj [("id", .bool b)])).isOk = false)
    ∧ (Sound.fromJson (.obj [("id", .null)])).isOk = false
    ∧ (Sound.fromJson (.str "not an object")).isOk = false :=
  ⟨rfl, rfl, fun _ => rfl, fun _ => rfl, rfl, rfl⟩

/-- C2 (counterexample): the claim "success exactly when the status is a
success AND the body contains a non-null `id`" is false on the code: with
status 200 and body containing `id: null` the probe succeeds, since
`json.get("id").is_some()` only checks presence of the key. -/
theorem probe_null_id_claim2_cex :
    FreesoundClient.test_api_key 200 (some (.obj [("id", .null)])) = .ok ()
    ∧ (Json.obj [("id", .null)]).get "id" = some .null := ⟨rfl, rfl⟩

/-- C2 (amended): the probe returns authentication-failure for status
401; a generic API-failure for every other non-success status and for a
success-status body that is malformed JSON; and for a success status with
a well-formed JSON body it succeeds exactly when the body has an `id`
key, null-valued or not. -/
theorem probe_claim2_amended :
    (∀ body, FreesoundClient.test_api_key 401 body
        = .error (.AuthError "Invalid API key"))
    ∧ (∀ status body, isSuccessStatus status = false → status ≠ 401 →
        ∃ m, FreesoundClient.test_api_key status body
          = .error (.ApiError m))
    ∧ (∀ status j, isSuccessStatus status = true →
        ((FreesoundClient.test_api_key status (some j)).isOk = true
          ↔ (j.get "id").isSome = true))
    ∧ (∀ status, isSuccessStatus status = true →
        ∃ m, FreesoundClient.test_api_key status none
          = .error (.ApiError m))
    ∧ (∀ status j, isSuccessStatus status = true →
        (j.get "id").isSome = false →
        FreesoundClient.test_api_key status (some j)
          = .error (.ApiError "Response missing sound ID")) := by
  refine ⟨fun body => rfl, ?_, ?_, ?_, ?_⟩
  · intro status body hfail h401
    exact ⟨"API request failed: " ++ toString status,
      by simp [FreesoundClient.test_api_key, h401, hfail]⟩
  · intro status j hs
    have h401 : status ≠ 401 := by
      intro e; subst e; simp [isSuccessStatus] at hs
    cases hc : (j.get "id").isSome <;>
      simp [FreesoundClient.test_api_key, h401, hs, hc, Except.isOk,
        Except.toBool]
  · intro status hs
    have h401 : status ≠ 401 := by
      intro e; subst e; simp [isSuccessStatus] at hs
    exact ⟨"Invalid JSON response",
      by simp [FreesoundClient.test_api_key, h401, hs]⟩
  · intro status j hs hno
    have h401 : status ≠ 401 := by
      intro e; subst e; simp [isSuccessStatus] at hs
    simp [FreesoundClient.test_api_key, h401, hs, hno]

/-- C2 witness: the success-characterization applied at status 200 with
body containing a numeric `id`, and the missing-`id` case at status 200
with an empty object body pinned to the generic API-failure kind. -/
theorem probe_claim2_amended_witness :
    ((FreesoundClient.test_api_key 200
        (some (.obj [("id", .num 42)]))).isOk = true
      ↔ ((Json.obj [("id", .num 42)]).get "id").isSome = true)
    ∧ FreesoundClient.test_api_key 200 (some (.obj []))
        = .error (.ApiError "Response missing sound ID") :=
  ⟨probe_claim2_amended.2.2.1 200 (.obj [("id", .num 42)]) rfl,
    probe_claim2_amended.2.2.2.2 200 (.obj []) rfl rfl⟩

/-- C3: rendering with no setters invoked produces the empty pair list;
rendering is a pure function of the builder state; after any chain of
setter calls starting from `new`, the rendered keys are exactly the keys
of the setters that occur in the chain, each exactly once, in the fixed
order of `builderKeys`; and for chains with pairwise-distinct setters the
invocation order does not affect the rendered output. -/
theorem builder_claim3 :
    SearchQueryBuilder.new.build = []
    ∧ (∀ b : SearchQueryBuilder, b.build = b.build)
    ∧ (∀ l : List SetterCall,
        (applyCalls SearchQueryBuilder.new l).build.map Prod.fst
          = builderKeys.filter (fun k => l.any (fun c => c.key == k))
        ∧ ((applyCalls SearchQueryBuilder.new l).build.map Prod.fst).Nodup)
    ∧ (∀ l l' : List SetterCall,
        l.Pairwise (fun a c => a.key ≠ c.key) → l.Perm l' →
        (applyCalls SearchQueryBuilder.new l).build
          = (applyCalls SearchQueryBuilder.new l').build) := by
  refine ⟨rfl, fun _ => rfl, fun l => ⟨build_keys_calls l, ?_⟩, ?_⟩
  · rw [build_keys_calls l]
    exact (by decide : builderKeys.Nodup).filter _
  · intro l l' hp hperm
    rw [applyCalls_perm l l' hperm hp]

/-- C3 witness: swapping two distinct setter calls yields the same
rendered output. -/
theorem builder_claim3_witness :
    (applyCalls SearchQueryBuilder.new
        [SetterCall.page 2, SetterCall.query "piano"]).build
      = (applyCalls SearchQueryBuilder.new
          [SetterCall.query "piano", SetterCall.page 2]).build :=
  builder_claim3.2.2.2 _ _
    (by simp [SetterCall.key])
    (List.Perm.swap (SetterCall.query "piano") (SetterCall.page 2) [])

/-- C4: every boolean set on the builder (`group_by_pack`, `normalized`)
and the `normalized` parameter of `get_sound` render as exactly "1" for
true and "0" for false, and no other token ever appears as the value of
these keys. -/
theorem bool_params_claim4 :
    (∀ (b : SearchQueryBuilder) (g : Bool),
        ("group_by_pack", if g then "1" else "0")
          ∈ (b.setGroupByPack g).build)
    ∧ (∀ (b : SearchQueryBuilder) (n : Bool),
        ("normalized", if n then "1" else "0") ∈ (b.setNormalized n).build)
    ∧ (∀ (b : SearchQueryBuilder) (v : String),
        ("group_by_pack", v) ∈ b.build → v = "1" ∨ v = "0")
    ∧ (∀ (b : SearchQueryBuilder) (v : String),
        ("normalized", v) ∈ b.build → v = "1" ∨ v = "0")
    ∧ (∀ (ds : Option (List String)) (n : Bool),
        ("normalized", if n then "1" else "0")
          ∈ getSoundQueryParams ds (some n))
    ∧ (∀ (ds : Option (List String)) (no : Option Bool) (v : String),
        ("normalized", v) ∈ getSoundQueryParams ds no →
          v = "1" ∨ v = "0") := by
  refine ⟨?_, ?_, ?_, ?_, ?_, ?_⟩
  · intro b g
    cases g <;>
      simp [SearchQueryBuilder.build, SearchQueryBuilder.setGroupByPack,
        mem_optPair]
  · intro b n
    cases n <;>
      simp [SearchQueryBuilder.build, SearchQueryBuilder.setNormalized,
        mem_optPair]
  · intro b v h
    simp [SearchQueryBuilder.build, mem_optPair] at h
    rcases h with ⟨_, hv⟩ | ⟨_, hv⟩
    · exact Or.inr hv
    · exact Or.inl hv
  · intro b v h
    simp [SearchQueryBuilder.build, mem_optPair] at h
    rcases h with ⟨_, hv⟩ | ⟨_, hv⟩
    · exact Or.inr hv
    · exact Or.inl hv
  · intro ds n
    cases ds <;> cases n <;> simp [getSoundQueryParams]
  · intro ds no v h
    cases ds <;> cases no <;> simp [getSoundQueryParams] at h <;>
      rename_i n <;> subst h <;> cases n <;> simp

/-- C4 witness: the only-token property applied at concrete inputs. -/
theorem bool_params_claim4_witness :
    (("1" : String) = "1" ∨ ("1" : String) = "0")
    ∧ (("0" : String) = "1" ∨ ("0" : String) = "0") :=
  ⟨bool_params_claim4.2.2.1 (SearchQueryBuilder.new.setGroupByPack true) "1"
      (by simp [SearchQueryBuilder.build, SearchQueryBuilder.setGroupByPack,
        SearchQueryBuilder.new, mem_optPair]),
    bool_params_claim4.2.2.2.2.2 none (some false) "0"
      (by simp [getSoundQueryParams])⟩

/-- C5: each of the nine sort variants renders to its documented exact
lowercase snake-case token, and when `sort` is unset no `sort` pair
appears in the rendered list. -/
theorem sort_tokens_claim5 :
    SortOption.Score.toString = "score"
    ∧ SortOption.DurationDesc.toString = "duration_desc"
    ∧ SortOption.DurationAsc.toString = "duration_asc"
    ∧ SortOption.CreatedDesc.toString = "created_desc"
    ∧ SortOption.CreatedAsc.toString = "created_asc"
    ∧ SortOption.DownloadsDesc.toString = "downloads_desc"
    ∧ SortOption.DownloadsAsc.toString = "downloads_asc"
    ∧ SortOption.RatingDesc.toString = "rating_desc"
    ∧ SortOption.RatingAsc.toString = "rating_asc"
    ∧ (∀ (b : SearchQueryBuilder), b.sort = none →
        ∀ v, ("sort", v) ∉ b.build) := by
  refine ⟨rfl, rfl, rfl, rfl, rfl, rfl, rfl, rfl, rfl, ?_⟩
  intro b hb v h
  simp [SearchQueryBuilder.build, mem_optPair, hb] at h

/-- C5 witness: no `sort` pair in the render of the fresh builder. -/
theorem sort_tokens_claim5_witness :
    ("sort", "score") ∉ SearchQueryBuilder.new.build :=
  sort_tokens_claim5.2.2.2.2.2.2.2.2.2 SearchQueryBuilder.new rfl "score"

/-- C6: list-valued parameters (`fields`, `descriptors`, and the
`descriptors` parameter of `get_sound`) render as the comma-joined
concatenation of the supplied list, preserving order and multiplicity
with no leading or trailing separator; in particular
`["id","name","id"]` renders as `"id,name,id"`; and the rendered value
for such a key is always the join of the stored list. -/
theorem list_params_claim6 :
    (∀ (b : SearchQueryBuilder) (l : List String),
        ("fields", String.intercalate "," l) ∈ (b.setFields l).build)
    ∧ (∀ (b : SearchQueryBuilder) (l : List String),
        ("descriptors", String.intercalate "," l)
          ∈ (b.setDescriptors l).build)
    ∧ (∀ (no : Option Bool) (l : List String),
        ("descriptors", String.intercalate "," l)
          ∈ getSoundQueryParams (some l) no)
    ∧ String.intercalate "," ["id", "name", "id"] = "id,name,id"
    ∧ (∀ (b : SearchQueryBuilder) (l : List String) (v : String),
        b.fields = some l → ("fields", v) ∈ b.build →
          v = String.intercalate "," l)
    ∧ (∀ (b : SearchQueryBuilder) (l : List String) (v : String),
        b.descriptors = some l → ("descriptors", v) ∈ b.build →
          v = String.intercalate "," l) := by
  refine ⟨?_, ?_, ?_, rfl, ?_, ?_⟩
  · intro b l
    simp [SearchQueryBuilder.build, SearchQueryBuilder.setFields,
      mem_optPair]
  · intro b l
    simp [SearchQueryBuilder.build, SearchQueryBuilder.setDescriptors,
      mem_optPair]
  · intro no l
    cases no <;> simp [getSoundQueryParams]
  · intro b l v hb h
    simp [SearchQueryBuilder.build, mem_optPair, hb] at h
    subst h
    rfl
  · intro b l v hb h
    simp [SearchQueryBuilder.build, mem_optPair, hb] at h
    subst h
    rfl

/-- C6 witness: duplicates are preserved in the rendered join. -/
theorem list_params_claim6_witness :
    ("id,name,id" : String)
      = String.intercalate "," ["id", "name", "id"] :=
  list_params_claim6.2.2.2.2.1
    (SearchQueryBuilder.new.setFields ["id", "name", "id"])
    ["id", "name", "id"] "id,name,id" rfl
    (by
      simp [SearchQueryBuilder.build, SearchQueryBuilder.setFields,
        SearchQueryBuilder.new, mem_optPair]
      rfl)

/-- C7: decoding the minimal object containing only an `id` field
succeeds and every other field of the record equals its documented
default: empty strings, zero numerics, empty tag list, and absent
optionals. -/
theorem sound_minimal_decode_claim7 :
    Sound.fromJson (.obj [("id", .num 42)])
      = .ok { id := 42, url := "", name := "", tags := [], description := "",
              geotag := none, created := "", license := "", sound_type := "",
              channels := 0, filesize := 0, bitrate := none, bitdepth := none,
              duration := 0, samplerate := 0, username := "", pack := none,
              download := "", bookmark := "", previews := none,
              images := none, num_downloads := 0, avg_rating := 0,
              num_ratings := 0, rate := "", comments := "", num_comments := 0,
              comment := "", similar_sounds := "", analysis := none,
              analysis_stats := "", analysis_frames := "" } := rfl

/-- C8: the empty envelope decodes to zero count, no links and no items;
a well-formed envelope decodes with the server-supplied result order
preserved (`mapM` over the results array) and the `next`/`previous`
links carried verbatim, with a missing link field decoding to `none`. -/
theorem envelope_decode_claim8 :
    (SearchResponse.fromJson
        (.obj [("results", .arr []), ("next", .null), ("previous", .null),
               ("count", .num 0)])
      = .ok { count := 0, next := none, results := [], previous := none })
    ∧ (∀ (c : Int) (nxt prv : Option String) (xs : List Json)
          (ss : List Sound),
        -2147483648 ≤ c → c < 2147483648 →
        xs.mapM Sound.fromJson = .ok ss →
        SearchResponse.fromJson
          (.obj [("count", .num (c : Rat)),
                 ("next", jsonOfOptStr nxt),
                 ("previous", jsonOfOptStr prv),
                 ("results", .arr xs)])
          = .ok { count := c, next := nxt, results := ss, previous := prv })
    ∧ (∀ (c : Int) (xs : List Json) (ss : List Sound),
        -2147483648 ≤ c → c < 2147483648 →
        xs.mapM Sound.fromJson = .ok ss →
        SearchResponse.fromJson
          (.obj [("count", .num (c : Rat)), ("results", .arr xs)])
          = .ok { count := c, next := none, results := ss,
                  previous := none }) := by
  have hc : ∀ c : Int, -2147483648 ≤ c → c < 2147483648 →
      asI32 (.num (c : Rat)) = .ok c := by
    intro c h1 h2
    simp [asI32, Rat.den_intCast, Rat.num_intCast, h1, h2]
  refine ⟨rfl, ?_, ?_⟩
  · intro c nxt prv xs ss h1 h2 hm
    have hn : asOptString (jsonOfOptStr nxt) = .ok nxt := by
      cases nxt <;> rfl
    have hp : asOptString (jsonOfOptStr prv) = .ok prv := by
      cases prv <;> rfl
    simp only [List.mapM] at hm
    simp [SearchResponse.fromJson, SearchResponse.decodeEntries,
      hc c h1 h2, hn, hp, asSoundArray, hm, Bind.bind, Except.bind]
  · intro c xs ss h1 h2 hm
    simp only [List.mapM] at hm
    simp [SearchResponse.fromJson, SearchResponse.decodeEntries,
      hc c h1 h2, asSoundArray, hm, Bind.bind, Except.bind]

/-- C8 witness: a one-element envelope with a `next` link and a missing
`previous` treated as null. -/
theorem envelope_decode_claim8_witness :
    SearchResponse.fromJson
        (.obj [("count", .num ((7 : Int) : Rat)),
               ("next", jsonOfOptStr (some "p2")),
               ("previous", jsonOfOptStr none),
               ("results", .arr [.obj [("id", .num 5)]])])
      = .ok { count := 7, next := some "p2",
              results := [{ Sound.default with id := 5 }],
              previous := none } :=
  envelope_decode_claim8.2.1 7 (some "p2") none [.obj [("id", .num 5)]]
    [{ Sound.default with id := 5 }] (by decide) (by decide) rfl

/-- C9: decoding any non-object payload into either target shape returns
a decode-failure value (the decoders are total functions into `Except`,
so no panic is possible). -/
theorem decode_nonobject_claim9 :
    ∀ j : Json, (∀ entries, j ≠ .obj entries) →
      (Sound.fromJson j).isOk = false
      ∧ (SearchResponse.fromJson j).isOk = false := by
  intro j h
  cases j <;> first
    | exact absurd rfl (h _)
    | exact ⟨rfl, rfl⟩

/-- C9 witness: a bare string payload fails to decode for both shapes. -/
theorem decode_nonobject_claim9_witness :
    (Sound.fromJson (.str "oops")).isOk = false
    ∧ (SearchResponse.fromJson (.str "oops")).isOk = false :=
  decode_nonobject_claim9 (.str "oops") (fun _ h => Json.noConfusion h)

/-- C10: for every non-success status (401 included) `search` and
`get_sound` return the generic API-failure kind carrying the status, and
neither ever produces the authentication-failure kind; `test_api_key`
produces the authentication-failure kind only for status 401. -/
theorem error_kinds_claim10 :
    (∀ status body, isSuccessStatus status = false →
        FreesoundClient.search status body
          = .error (.ApiError ("API request failed: " ++ toString status)))
    ∧ (∀ status body, isSuccessStatus status = false →
        FreesoundClient.get_sound status body
          = .error (.ApiError ("API request failed: " ++ toString status)))
    ∧ isSuccessStatus 401 = false
    ∧ (∀ status body m,
        FreesoundClient.search status body ≠ .error (.AuthError m))
    ∧ (∀ status body m,
        FreesoundClient.get_sound status body ≠ .error (.AuthError m))
    ∧ (∀ status body m,
        FreesoundClient.test_api_key status body
          = .error (.AuthError m) → status = 401) := by
  refine ⟨?_, ?_, rfl, ?_, ?_, ?_⟩
  · intro status body h
    simp [FreesoundClient.search, h]
  · intro status body h
    simp [FreesoundClient.get_sound, h]
  · intro status body m h
    cases hs : isSuccessStatus status <;>
      simp [FreesoundClient.search, hs] at h
    cases body with
    | none => simp at h
    | some j => cases hfj : SearchResponse.fromJson j <;> simp [hfj] at h
  · intro status body m h
    cases hs : isSuccessStatus status <;>
      simp [FreesoundClient.get_sound, hs] at h
    cases body with
    | none => simp at h
    | some j => cases hfj : Sound.fromJson j <;> simp [hfj] at h
  · intro status body m h
    by_cases h401 : status = 401
    · exact h401
    · exfalso
      cases hs : isSuccessStatus status <;>
        simp [FreesoundClient.test_api_key, h401, hs] at h
      cases body with
      | none => simp at h
      | some j =>
        cases hc : (j.get "id").isSome <;> simp [hc] at h

/-- C10 witness: a 401 on `search` and a 404 on `get_sound` both surface
as the generic API-failure kind. -/
theorem error_kinds_claim10_witness :
    FreesoundClient.search 401 none
      = .error (.ApiError ("API request failed: " ++ toString 401))
    ∧ FreesoundClient.get_sound 404 none
      = .error (.ApiError ("API request failed: " ++ toString 404)) :=
  ⟨error_kinds_claim10.1 401 none rfl,
    error_kinds_claim10.2.1 404 none rfl⟩
